import Mathlib

set_option maxHeartbeats 1000000

namespace DevicUI

/-! Shallow embedding of the conversation-synchronization engine of the
`@devicai/ui` repository: the data shapes from `src/api/types.ts`, the tool
executor from `src/hooks/useModelInterface.ts`, the timer lifecycle of
`src/hooks/usePolling.ts`, and the `useDevicChat` state machine
(`src/unnamed/part_005`).  React state cells become fields of explicit state
records; each handler becomes a function from state (plus the data it received)
to state, paired with the list of observable side effects (callback
invocations, transport submissions) it performs, in order.  Transport calls are
modelled by `Except` outcome parameters. -/

/-- Roles a chat message can carry (`ChatMessage.role` in `src/api/types.ts`). -/
inductive Role where
  | user
  | assistant
  | developer
  | tool
deriving DecidableEq, Repr

/-- One entry of `MessageContent.files` (`src/api/types.ts`). -/
structure ContentFile where
  name : String
  url : String
  type : String
deriving DecidableEq, Repr

/-- `MessageContent` from `src/api/types.ts`.  The `data : any` field is never
read by the synchronization engine and is omitted. -/
structure MessageContent where
  message : Option String := none
  files : Option (List ContentFile) := none
deriving DecidableEq, Repr

/-- The `function` component of a `ToolCall` (`src/api/types.ts`). -/
structure ToolCallFunction where
  name : String
  arguments : String
deriving DecidableEq, Repr

/-- `ToolCall` from `src/api/types.ts`.  The constant discriminator field
`type : 'function'` is omitted. -/
structure ToolCall where
  id : String
  function : ToolCallFunction
deriving DecidableEq, Repr

/-- `ChatMessage` from `src/api/types.ts`.  The optional `chatUid` and
`summary` fields are never read by the engine and are omitted. -/
structure ChatMessage where
  uid : String
  role : Role
  content : MessageContent
  timestamp : Nat
  tool_calls : Option (List ToolCall) := none
  tool_call_id : Option String := none
deriving DecidableEq, Repr

/-- `RealtimeStatus` from `src/api/types.ts`. -/
inductive RealtimeStatus where
  | processing
  | completed
  | error
  | waiting_for_tool_response
  | handed_off
deriving DecidableEq, Repr

/-- `RealtimeChatHistory` from `src/api/types.ts`.  The `chatUID`, `clientUID`
and `lastUpdatedAt` metadata fields are never read by the engine and are
omitted. -/
structure RealtimeChatHistory where
  chatHistory : List ChatMessage
  status : RealtimeStatus
  pendingToolCalls : Option (List ToolCall) := none
  handedOffSubThreadId : Option String := none
deriving DecidableEq, Repr

/-- `ChatFile` from `src/api/types.ts` (attachment given to `sendMessage`).
The `fileType` union of string literals is kept as a plain string. -/
structure ChatFile where
  name : String
  downloadUrl : Option String := none
  fileType : Option String := none
deriving DecidableEq, Repr

/-- The `RealtimeStatus | 'idle'` union held in the `status` state cell of
`useDevicChat`. -/
inductive ChatStatus where
  | idle
  | processing
  | completed
  | error
  | waiting_for_tool_response
  | handed_off
deriving DecidableEq, Repr

/-- Injection of a realtime status into the `status` state cell. -/
def RealtimeStatus.toChatStatus : RealtimeStatus → ChatStatus
  | RealtimeStatus.processing => ChatStatus.processing
  | RealtimeStatus.completed => ChatStatus.completed
  | RealtimeStatus.error => ChatStatus.error
  | RealtimeStatus.waiting_for_tool_response => ChatStatus.waiting_for_tool_response
  | RealtimeStatus.handed_off => ChatStatus.handed_off

/-- Opaque stand-in for the arbitrary JSON values produced by argument parsing
and tool callbacks.  The engine never inspects these values, so any inhabited
type with decidable equality is a faithful model; `emptyObject` is the
JavaScript fallback value for unparseable arguments. -/
inductive Value where
  | emptyObject
  | str (s : String)
  | num (n : Int)
  | boolean (b : Bool)
deriving DecidableEq, Repr

/-- The `content` of a tool response: either the callback's resolved value or
the error wrapper object built in the catch branch of `handleToolCalls`. -/
inductive ToolContent where
  | result (v : Value)
  | errorWrapper (message : String)
deriving DecidableEq, Repr

/-- `ToolCallResponse` from `src/api/types.ts`. -/
structure ToolCallResponse where
  tool_call_id : String
  content : ToolContent
  role : Role
deriving DecidableEq, Repr

/-- `ModelInterfaceTool` from `src/api/types.ts`.  The JSON `schema` field is
only forwarded to the API and is omitted; the callback is modelled as a
function returning a resolved value or a rejection message. -/
structure ModelInterfaceTool where
  toolName : String
  callback : Value → Except String Value

/-- Lookup in the `toolMap` of `useModelInterface.ts`
(`new Map(tools.map((tool) => [tool.toolName, tool]))`): a JavaScript `Map`
built by insertion, so a later entry with the same name overwrites an earlier
one. -/
def toolMapGet (tools : List ModelInterfaceTool) (name : String) :
    Option ModelInterfaceTool :=
  tools.foldl (fun acc t => if t.toolName = name then some t else acc) none

/-- `isClientTool` from `useModelInterface.ts`: membership in `toolMap`. -/
def isClientTool (tools : List ModelInterfaceTool) (name : String) : Bool :=
  (toolMapGet tools name).isSome

/-- JavaScript truthy-or-default on an optional string (`v || dflt`):
`undefined`/`null` and the empty string are falsy. -/
def jsOrStr (v : Option String) (dflt : String) : String :=
  match v with
  | some s => if s = "" then dflt else s
  | none => dflt

/-- JavaScript truthiness of a `string | null | undefined` value. -/
def optStrTruthy : Option String → Bool
  | some s => !(s = "" : Bool)
  | none => false

/-- The argument string actually handed to `JSON.parse` in `handleToolCalls`:
`toolCall.function.arguments || '\x7b\x7d'` (empty string is falsy). -/
def effectiveArguments (tc : ToolCall) : String :=
  if tc.function.arguments = "" then "\x7b\x7d" else tc.function.arguments

/-- The parsed parameters for one tool call: `JSON.parse` is modelled by an
abstract `parseJson` function returning `none` on a parse failure, in which
case the catch branch keeps the empty-object default. -/
def parsedParams (parseJson : String → Option Value) (tc : ToolCall) : Value :=
  (parseJson (effectiveArguments tc)).getD Value.emptyObject

/-- `handleToolCalls` from `useModelInterface.ts` (lines 108-163): iterate over
the batch; skip calls whose name is not in the tool map; for registered calls
parse the arguments, run the callback, and push either a value response or an
`\x7b error: message \x7d` response.  The `onToolExecute` / `onToolComplete` /
`onToolError` observability hooks perform no state change and are not
modelled. -/
def handleToolCalls (tools : List ModelInterfaceTool)
    (parseJson : String → Option Value) : List ToolCall → List ToolCallResponse
  | [] => []
  | tc :: rest =>
    match toolMapGet tools tc.function.name with
    | none => handleToolCalls tools parseJson rest
    | some tool =>
      match tool.callback (parsedParams parseJson tc) with
      | Except.ok result =>
        { tool_call_id := tc.id, content := ToolContent.result result,
          role := Role.tool } :: handleToolCalls tools parseJson rest
      | Except.error msg =>
        { tool_call_id := tc.id, content := ToolContent.errorWrapper msg,
          role := Role.tool } :: handleToolCalls tools parseJson rest

/-- The loop condition of `extractPendingToolCalls`
(`message.role === 'assistant' && message.tool_calls?.length`). -/
def hasAssistantToolCalls (m : ChatMessage) : Bool :=
  decide (m.role = Role.assistant) && !(m.tool_calls.getD []).isEmpty

/-- The backward scan of `extractPendingToolCalls` (`useModelInterface.ts`
lines 171-198).  The first argument list is the still-unvisited part of the
transcript in reverse order; `suffix` accumulates the already-visited messages,
i.e. exactly `messages.slice(i + 1)` in original order.  At the first assistant
message carrying tool calls, filter its calls to client tools and drop those
answered by a later tool-role message, then stop (the `break`). -/
def extractLoop (tools : List ModelInterfaceTool) :
    List ChatMessage → List ChatMessage → List ToolCall
  | [], _ => []
  | m :: restRev, suffix =>
    if hasAssistantToolCalls m then
      let clientToolCalls := (m.tool_calls.getD []).filter
        (fun tc => isClientTool tools tc.function.name)
      let respondedToolIds :=
        (suffix.filter (fun x => decide (x.role = Role.tool))).map
          (fun x => x.tool_call_id)
      clientToolCalls.filter (fun tc => !respondedToolIds.contains (some tc.id))
    else extractLoop tools restRev (m :: suffix)

/-- `extractPendingToolCalls` from `useModelInterface.ts` (lines 166-203). -/
def extractPendingToolCalls (tools : List ModelInterfaceTool)
    (messages : List ChatMessage) : List ToolCall :=
  extractLoop tools messages.reverse []

/-- The mutable React state cells of `useDevicChat` (part_005 lines 209-221)
that the claims are about.  `shouldPoll` is the flag feeding the polling
hook. -/
structure ChatState where
  messages : List ChatMessage
  chatUid : Option String
  isLoading : Bool
  status : ChatStatus
  error : Option String
  handedOff : Bool
  handedOffSubThreadId : Option String
  shouldPoll : Bool
deriving DecidableEq, Repr

/-- Observable side effects of the engine, in the order they are performed:
caller-supplied callbacks and transport submissions. -/
inductive EngineEvent where
  | messageSentCb (m : ChatMessage)
  | messageReceivedCb (m : ChatMessage)
  | chatCreatedCb (uid : String)
  | errorCb (msg : String)
  | toolExecutorCall (calls : List ToolCall)
  | submitToolResponses (responses : List ToolCallResponse)
  | submitMessage
deriving DecidableEq, Repr

/-- Static configuration of the engine: whether an API client exists
(`clientRef.current`, i.e. an API key was available) and the registered
model-interface tools together with the JSON parser. -/
structure EngineCfg where
  clientConfigured : Bool
  tools : List ModelInterfaceTool
  parseJson : String → Option Value

/-- The message-list merge performed by the `setMessages` updater inside
`onUpdate` (part_005 lines 310-326): collect the snapshot uids and the snapshot
user-message texts, keep only the previous messages that match neither, and
append them after the full snapshot list. -/
def reconcile (snapshot : List ChatMessage) (prev : List ChatMessage) :
    List ChatMessage :=
  let realtimeUIDs := snapshot.map (fun m => m.uid)
  let realtimeUserMessages :=
    (snapshot.filter (fun m => decide (m.role = Role.user))).map
      (fun m => m.content.message)
  let optimistic := prev.filter (fun m =>
    !realtimeUIDs.contains m.uid &&
    !(decide (m.role = Role.user) &&
      realtimeUserMessages.contains m.content.message))
  snapshot ++ optimistic

/-- `handlePendingToolCalls` from part_005 (lines 375-403).  `submitOutcome`
models the `sendToolResponses` transport call.  Guard: no client or falsy
`chatUid` is a no-op.  The pending set prefers the snapshot's explicit
`pendingToolCalls` (JavaScript `||`: even an empty present array is truthy) and
falls back to scanning the snapshot transcript.  Tool execution itself never
rejects; a rejected submission is caught and recorded in `error` only. -/
def handlePendingToolCalls (cfg : EngineCfg) (submitOutcome : Except String Unit)
    (s : ChatState) (data : RealtimeChatHistory) : ChatState × List EngineEvent :=
  if !cfg.clientConfigured || !optStrTruthy s.chatUid then (s, [])
  else
    let pendingCalls := match data.pendingToolCalls with
      | some calls => calls
      | none => extractPendingToolCalls cfg.tools data.chatHistory
    if pendingCalls.length = 0 then (s, [])
    else
      let responses := handleToolCalls cfg.tools cfg.parseJson pendingCalls
      if responses.length > 0 then
        match submitOutcome with
        | Except.ok _ =>
          ({s with shouldPoll := true, isLoading := true},
           [EngineEvent.toolExecutorCall pendingCalls,
            EngineEvent.submitToolResponses responses])
        | Except.error msg =>
          ({s with error := some msg},
           [EngineEvent.toolExecutorCall pendingCalls,
            EngineEvent.submitToolResponses responses,
            EngineEvent.errorCb msg])
      else (s, [EngineEvent.toolExecutorCall pendingCalls])

/-- The `onUpdate` callback of the polling hook (part_005 lines 306-339):
merge the snapshot into the message list, adopt the snapshot status, notify
when the last snapshot message is assistant-authored, and invoke the
pending-tool-call handler when the status is `waiting_for_tool_response` or the
snapshot carries a non-empty `pendingToolCalls` list
(`data.pendingToolCalls?.length` is truthy exactly then). -/
def onUpdate (cfg : EngineCfg) (submitOutcome : Except String Unit)
    (s : ChatState) (data : RealtimeChatHistory) : ChatState × List EngineEvent :=
  let s1 := {s with
    messages := reconcile data.chatHistory s.messages,
    status := data.status.toChatStatus}
  let notifyEvents := match data.chatHistory.getLast? with
    | some lastMessage =>
      if lastMessage.role = Role.assistant then
        [EngineEvent.messageReceivedCb lastMessage]
      else []
    | none => []
  if data.status = RealtimeStatus.waiting_for_tool_response
      || !(data.pendingToolCalls.getD []).isEmpty then
    let r := handlePendingToolCalls cfg submitOutcome s1 data
    (r.1, notifyEvents ++ r.2)
  else (s1, notifyEvents)

/-- The `onStop` callback of the polling hook (part_005 lines 340-363):
always clear `shouldPoll`; on `error` clear loading and record a generic
failure; on `completed` clear loading only; on `handed_off` set the handoff
flag and adopt a truthy subthread id; any other status performs no further
action. -/
def onStop (s : ChatState) (data : Option RealtimeChatHistory) :
    ChatState × List EngineEvent :=
  let s0 := {s with shouldPoll := false}
  match data with
  | none => (s0, [])
  | some d =>
    if d.status = RealtimeStatus.error then
      ({s0 with isLoading := false, error := some "Chat processing failed"},
       [EngineEvent.errorCb "Chat processing failed"])
    else if d.status = RealtimeStatus.completed then
      ({s0 with isLoading := false}, [])
    else if d.status = RealtimeStatus.handed_off then
      let s1 := {s0 with handedOff := true}
      if optStrTruthy d.handedOffSubThreadId then
        ({s1 with handedOffSubThreadId := d.handedOffSubThreadId}, [])
      else (s1, [])
    else (s0, [])

/-- The stop statuses `useDevicChat` configures on the polling hook
(part_005 line 305). -/
def stopStatuses : List RealtimeStatus :=
  [RealtimeStatus.completed, RealtimeStatus.error,
   RealtimeStatus.waiting_for_tool_response, RealtimeStatus.handed_off]

/-- One successful poll tick as seen by the engine (`fetchData` success path of
`usePolling.ts` lines 129-148 combined with the `useDevicChat` callbacks):
`onUpdate` runs on every result, then `onStop` runs exactly when the result's
status is in the configured stop set. -/
def pollTick (cfg : EngineCfg) (submitOutcome : Except String Unit)
    (s : ChatState) (data : RealtimeChatHistory) : ChatState × List EngineEvent :=
  let u := onUpdate cfg submitOutcome s data
  if stopStatuses.contains data.status then
    let st := onStop u.1 (some data)
    (st.1, u.2 ++ st.2)
  else u

/-- The `onError` callback of the polling hook (part_005 lines 364-370):
record the error, clear loading, stop polling, notify.  The `status` cell is
not written. -/
def onPollError (msg : String) (s : ChatState) : ChatState × List EngineEvent :=
  ({s with error := some msg, isLoading := false, shouldPoll := false},
   [EngineEvent.errorCb msg])

/-- The temporary uid given to an optimistic message
(`temp-${Date.now()}`, part_005 line 429). -/
def tempUid (now : Nat) : String := "temp-" ++ toString now

/-- The optimistic user message appended by `sendMessage`
(part_005 lines 428-440). -/
def optimisticMessage (now : Nat) (text : String)
    (files : Option (List ChatFile)) : ChatMessage :=
  { uid := tempUid now
    role := Role.user
    content :=
      { message := some text
        files := files.map (fun fs => fs.map (fun f =>
          { name := f.name
            url := jsOrStr f.downloadUrl ""
            type := jsOrStr f.fileType "other" })) }
    timestamp := now }

/-- `AsyncResponse` from `src/api/types.ts`; only `chatUid` is read by
`sendMessage`. -/
structure AsyncResponse where
  chatUid : String
deriving DecidableEq, Repr

/-- The configuration-error message of the `sendMessage` guard
(part_005 lines 415-417). -/
def configErrorMessage : String :=
  "API client not configured. Please provide an API key."

/-- `sendMessage` from part_005 (lines 406-496).  `now` stands for
`Date.now()`, `outcome` for the `sendMessageAsync` transport call.  Guard: with
no configured client, record a configuration error and notify, touching nothing
else.  Otherwise set loading/processing, append the optimistic message, notify
`onMessageSent`, submit; on success adopt a new truthy chat uid (firing the
created callback) and arm polling; on failure record the error, clear loading,
set status `error`, notify, and filter out every message bearing the optimistic
uid. -/
def sendMessage (clientConfigured : Bool) (now : Nat) (text : String)
    (files : Option (List ChatFile)) (outcome : Except String AsyncResponse)
    (s : ChatState) : ChatState × List EngineEvent :=
  if !clientConfigured then
    ({s with error := some configErrorMessage},
     [EngineEvent.errorCb configErrorMessage])
  else
    let s1 := { s with
      isLoading := true, error := none, status := ChatStatus.processing }
    let userMessage := optimisticMessage now text files
    let s2 := {s1 with messages := s1.messages ++ [userMessage]}
    let sentEvents := [EngineEvent.messageSentCb userMessage,
      EngineEvent.submitMessage]
    match outcome with
    | Except.ok response =>
      if response.chatUid ≠ "" ∧ some response.chatUid ≠ s.chatUid then
        ({s2 with chatUid := some response.chatUid, shouldPoll := true},
         sentEvents ++ [EngineEvent.chatCreatedCb response.chatUid])
      else ({s2 with shouldPoll := true}, sentEvents)
    | Except.error msg =>
      ({ s2 with
         error := some msg, isLoading := false, status := ChatStatus.error,
         messages := s2.messages.filter
           (fun m => decide (m.uid ≠ userMessage.uid)) },
       sentEvents ++ [EngineEvent.errorCb msg])

/-- `clearChat` from part_005 (lines 499-505): reset messages, chat uid,
status and error, and clear the poll flag.  The loading flag, handoff flag and
subthread id cells are not written. -/
def clearChat (s : ChatState) : ChatState :=
  { s with
    messages := [], chatUid := none, status := ChatStatus.idle,
    error := none, shouldPoll := false }

/-- `loadChat` from part_005 (lines 508-539).  `outcome` models the
`getChatHistory` transport call delivering `history.chatContent`. -/
def loadChat (clientConfigured : Bool) (loadChatUid : String)
    (outcome : Except String (List ChatMessage)) (s : ChatState) :
    ChatState × List EngineEvent :=
  if !clientConfigured then
    ({s with error := some "API client not configured"},
     [EngineEvent.errorCb "API client not configured"])
  else
    let s1 := {s with isLoading := true, error := none}
    match outcome with
    | Except.ok content =>
      ({ s1 with
         messages := content, chatUid := some loadChatUid,
         status := ChatStatus.completed, isLoading := false }, [])
    | Except.error msg =>
      ({s1 with error := some msg, isLoading := false},
       [EngineEvent.errorCb msg])

/-! Timer lifecycle of `usePolling.ts`.  `intervalRef` / `isPollingRef` are the
hook's refs; `activeTimers` records the identities of the `setInterval` timers
currently live in the browser, and `nextId` supplies fresh timer ids.  The
React mirror states `data`, `error`, `isPolling` never feed back into timer
management and are omitted. -/
structure PollState where
  intervalRef : Option Nat
  isPollingRef : Bool
  activeTimers : List Nat
  nextId : Nat
deriving DecidableEq, Repr

/-- `setInterval`: allocate a fresh live timer, returning its id. -/
def setIntervalM (s : PollState) : PollState × Nat :=
  ({s with activeTimers := s.nextId :: s.activeTimers, nextId := s.nextId + 1},
   s.nextId)

/-- `clearInterval` on a given timer id. -/
def clearIntervalM (s : PollState) (t : Nat) : PollState :=
  {s with activeTimers := s.activeTimers.filter (fun x => decide (x ≠ t))}

/-- `clearPolling` from `usePolling.ts` (lines 117-123): clear the scheduled
timer, if any, and drop the polling flag. -/
def clearPolling (s : PollState) : PollState :=
  let s1 := match s.intervalRef with
    | some t => {clearIntervalM s t with intervalRef := none}
    | none => s
  {s1 with isPollingRef := false}

/-- `start` from `usePolling.ts` (lines 163-175): a no-op when a timer is
already scheduled; otherwise raise the polling flag, fire the immediate fetch
(which touches no timer state at call time), and schedule the interval. -/
def startOp (s : PollState) : PollState :=
  if s.intervalRef.isSome then s
  else
    let s1 := {s with isPollingRef := true}
    let r := setIntervalM s1
    {r.1 with intervalRef := some r.2}

/-- `stop` from `usePolling.ts` (lines 177-180). -/
def stopOp (s : PollState) : PollState :=
  clearPolling s

/-- The auto-start effect of `usePolling.ts` (lines 187-218): when disabled or
without a truthy chat uid, clear polling if the flag is up; otherwise start an
interval only when the polling flag is down.  Note the start branch is guarded
by `isPollingRef`, not by `intervalRef`, and does not clear a previous timer
before overwriting the ref. -/
def autoEffectOp (enabled : Bool) (chatUid : Option String) (s : PollState) :
    PollState :=
  if !enabled || !optStrTruthy chatUid then
    if s.isPollingRef then clearPolling s else s
  else
    if !s.isPollingRef then
      let s1 := {s with isPollingRef := true}
      let r := setIntervalM s1
      {r.1 with intervalRef := some r.2}
    else s

/-- The timer-relevant continuation of `fetchData` (`usePolling.ts` lines
129-160): a result whose status is in the stop set, or a fetch failure, clears
polling; any other result leaves the timers untouched. -/
def tickStopOp (s : PollState) : PollState :=
  clearPolling s

/-- Fetch failure continuation of `fetchData`: clears polling. -/
def tickErrorOp (s : PollState) : PollState :=
  clearPolling s

/-- Unmount cleanup of `usePolling.ts` (lines 221-227). -/
def unmountOp (s : PollState) : PollState :=
  clearPolling s

/-- The timer-affecting entry points of one `usePolling` instance. -/
inductive PollOp where
  | start
  | stop
  | autoEffect (enabled : Bool) (chatUid : Option String)
  | tickStop
  | tickError
  | unmount
deriving DecidableEq, Repr

/-- Dispatch one entry point. -/
def applyPollOp (s : PollState) : PollOp → PollState
  | PollOp.start => startOp s
  | PollOp.stop => stopOp s
  | PollOp.autoEffect enabled chatUid => autoEffectOp enabled chatUid s
  | PollOp.tickStop => tickStopOp s
  | PollOp.tickError => tickErrorOp s
  | PollOp.unmount => unmountOp s

/-- Initial hook state: no timer, flag down, no live timers. -/
def initPollState : PollState :=
  { intervalRef := none, isPollingRef := false, activeTimers := [], nextId := 0 }

/-- The internal consistency invariant of the polling hook: the polling flag
mirrors the presence of a scheduled timer, and the live timers are exactly the
one held by `intervalRef`. -/
def pollInv (s : PollState) : Prop :=
  s.isPollingRef = s.intervalRef.isSome ∧
  s.activeTimers = s.intervalRef.toList

/-- Recognizer for tool-executor invocation events. -/
def isToolExecutorEvent : EngineEvent → Bool
  | EngineEvent.toolExecutorCall _ => true
  | _ => false

/-- A concrete tool registry used by the closed witness statements: one
always-succeeding tool and one always-rejecting tool. -/
def demoTools : List ModelInterfaceTool :=
  [{ toolName := "get_location", callback := fun _ => Except.ok (Value.str "NYC") },
   { toolName := "boom_tool", callback := fun _ => Except.error "boom" }]

/-- A concrete JSON parser for witness statements: fails on the empty-object
text, succeeds with a string payload otherwise. -/
def demoParse (s : String) : Option Value :=
  if s = "\x7b\x7d" then none else some (Value.str s)

/-- Concrete engine configuration for witness statements. -/
def demoCfg : EngineCfg :=
  { clientConfigured := true, tools := demoTools, parseJson := demoParse }

/-- A concrete tool call targeting the succeeding demo tool. -/
def demoCall : ToolCall :=
  { id := "call-1", function := { name := "get_location", arguments := "" } }

/-- A concrete tool call targeting the rejecting demo tool. -/
def demoCallBoom : ToolCall :=
  { id := "call-2", function := { name := "boom_tool", arguments := "x" } }

/-- A concrete engine state mid-processing, used by witnesses and
counterexamples. -/
def demoState : ChatState :=
  { messages := [], chatUid := some "chat-1", isLoading := true,
    status := ChatStatus.processing, error := none, handedOff := false,
    handedOffSubThreadId := none, shouldPoll := true }

/-- A state whose message list already holds a message with the colliding
temporary uid `temp-5`. -/
def collidingMessage : ChatMessage :=
  { uid := "temp-5"
    role := Role.user
    content := { message := some "earlier", files := none }
    timestamp := 0 }

/-- A state whose message list already holds `collidingMessage`. -/
def collidingState : ChatState :=
  { messages := [collidingMessage]
    chatUid := some "chat-1"
    isLoading := true
    status := ChatStatus.processing
    error := none
    handedOff := false
    handedOffSubThreadId := none
    shouldPoll := true }

/-- A concrete snapshot in `waiting_for_tool_response` with an explicit
non-empty pending list. -/
def demoWaitingData : RealtimeChatHistory :=
  { chatHistory := []
    status := RealtimeStatus.waiting_for_tool_response
    pendingToolCalls := some [demoCall, demoCallBoom]
    handedOffSubThreadId := none }

/-- An earlier assistant message with a still-unanswered tool call, for the
extraction-scoping witness. -/
def earlierAssistantMessage : ChatMessage :=
  { uid := "a1"
    role := Role.assistant
    content := { message := none, files := none }
    timestamp := 1
    tool_calls := some [{ id := "c0", function := { name := "get_location", arguments := "" } }] }

/-- The latest assistant message carrying tool calls, for the
extraction-scoping witness: one client tool call and one foreign call. -/
def latestAssistantMessage : ChatMessage :=
  { uid := "a2"
    role := Role.assistant
    content := { message := none, files := none }
    timestamp := 2
    tool_calls := some
      [{ id := "c1", function := { name := "get_location", arguments := "" } }
       ,
       { id := "c2", function := { name := "server_tool", arguments := "" } }] }

/-- A tool-role response answering some unrelated call id, placed after the
latest assistant message in the extraction-scoping witness. -/
def toolResponseMessage : ChatMessage :=
  { uid := "t1"
    role := Role.tool
    content := { message := none, files := none }
    timestamp := 3
    tool_call_id := some "c9" }

/-- A state whose message uids are all disjoint from the temporary
namespace, for the failed-send witness. -/
def freshState : ChatState :=
  { messages := [{ uid := "m1"
                   role := Role.user
                   content := { message := some "old", files := none }
                   timestamp := 0 }]
    chatUid := some "chat-1"
    isLoading := false
    status := ChatStatus.completed
    error := none
    handedOff := false
    handedOffSubThreadId := none
    shouldPoll := false }

/-- A poll state with a scheduled timer, for the start-is-a-no-op witness. -/
def busyPollState : PollState :=
  { intervalRef := some 0, isPollingRef := true, activeTimers := [0], nextId := 1 }

/-- A state with loading, handoff flag and subthread id all set, used to
probe `clearChat`. -/
def handoffState : ChatState :=
  { messages := [{ uid := "m1"
                   role := Role.assistant
                   content := { message := some "hi", files := none }
                   timestamp := 1 }]
    chatUid := some "chat-1"
    isLoading := true
    status := ChatStatus.handed_off
    error := some "old"
    handedOff := true
    handedOffSubThreadId := some "sub-1"
    shouldPoll := true }

/-! Theorems. -/

/-- Pointwise form of the keep-predicate of `reconcile`: the code's
set-membership tests agree with the spec's description (id absent, and for
user-authored messages text absent as well). -/
theorem reconcile_keep_eq (m : ChatMessage) (uids : List String)
    (texts : List (Option String)) :
    (!uids.contains m.uid &&
      !(decide (m.role = Role.user) && texts.contains m.content.message))
    = decide (m.uid ∉ uids ∧
        (m.role = Role.user → m.content.message ∉ texts)) := by
  by_cases h1 : m.uid ∈ uids <;> by_cases h2 : m.role = Role.user <;>
    by_cases h3 : m.content.message ∈ texts <;>
      simp [h1, h2, h3, List.contains, List.elem_eq_mem]

/-- `reconcile` equals the snapshot list followed by the filtered previous
list, with the filter stated the way the spec words it. -/
theorem reconcile_eq_spec (snapshot prev : List ChatMessage) :
    reconcile snapshot prev =
      snapshot ++ prev.filter (fun m => decide (
        m.uid ∉ snapshot.map (fun x => x.uid) ∧
        (m.role = Role.user →
          m.content.message ∉
            (snapshot.filter (fun x => decide (x.role = Role.user))).map
              (fun x => x.content.message)))) := by
  unfold reconcile
  refine congrArg (snapshot ++ ·) ?_
  exact List.filter_congr (fun m _ => reconcile_keep_eq m _ _)

/-- `handlePendingToolCalls` never writes the message list, the chat uid or
the status cell. -/
theorem handlePendingToolCalls_frame (cfg : EngineCfg)
    (submitOutcome : Except String Unit) (s : ChatState)
    (data : RealtimeChatHistory) :
    (handlePendingToolCalls cfg submitOutcome s data).1.messages = s.messages ∧
    (handlePendingToolCalls cfg submitOutcome s data).1.chatUid = s.chatUid ∧
    (handlePendingToolCalls cfg submitOutcome s data).1.status = s.status := by
  simp only [handlePendingToolCalls]
  repeat' split
  all_goals exact ⟨rfl, rfl, rfl⟩

/-- The message list produced by `onUpdate` is exactly `reconcile`. -/
theorem onUpdate_messages (cfg : EngineCfg) (submitOutcome : Except String Unit)
    (s : ChatState) (data : RealtimeChatHistory) :
    (onUpdate cfg submitOutcome s data).1.messages =
      reconcile data.chatHistory s.messages := by
  simp only [onUpdate]
  split
  · exact (handlePendingToolCalls_frame cfg submitOutcome _ data).1
  · rfl

/-- C1: a poll update carrying snapshot `data` leaves the local message list
equal to the snapshot's message list in server order, followed by exactly those
previous local messages whose id is not among the snapshot ids and, for
user-role messages, whose text content is not among the text contents of the
snapshot's user-role messages; every other previous message is dropped. -/
theorem poll_update_reconciles_messages (cfg : EngineCfg)
    (submitOutcome : Except String Unit) (s : ChatState)
    (data : RealtimeChatHistory) :
    (onUpdate cfg submitOutcome s data).1.messages =
      data.chatHistory ++ s.messages.filter (fun m => decide (
        m.uid ∉ data.chatHistory.map (fun x => x.uid) ∧
        (m.role = Role.user →
          m.content.message ∉
            (data.chatHistory.filter
              (fun x => decide (x.role = Role.user))).map
              (fun x => x.content.message)))) := by
  rw [onUpdate_messages, reconcile_eq_spec]

/-- Applying the same snapshot's merge twice changes nothing the second
time. -/
theorem reconcile_idem (snapshot prev : List ChatMessage) :
    reconcile snapshot (reconcile snapshot prev) = reconcile snapshot prev := by
  unfold reconcile
  refine congrArg (snapshot ++ ·) ?_
  rw [List.filter_append]
  have h1 : snapshot.filter (fun m =>
      !(snapshot.map (fun x => x.uid)).contains m.uid &&
      !(decide (m.role = Role.user) &&
        ((snapshot.filter (fun x => decide (x.role = Role.user))).map
          (fun x => x.content.message)).contains m.content.message)) = [] := by
    rw [List.filter_eq_nil_iff]
    intro m hm
    have : m.uid ∈ snapshot.map (fun x => x.uid) := List.mem_map_of_mem _ hm
    simp [List.contains, List.elem_eq_mem, this]
  rw [h1, List.nil_append, List.filter_filter]
  exact List.filter_congr (fun m _ => by rw [Bool.and_self])

/-- C2: poll-update reconciliation is idempotent — applying the same snapshot
twice in succession yields the same local message list as applying it once. -/
theorem poll_update_idempotent (cfg : EngineCfg)
    (submitOutcome : Except String Unit) (s : ChatState)
    (data : RealtimeChatHistory) :
    (onUpdate cfg submitOutcome
        (onUpdate cfg submitOutcome s data).1 data).1.messages =
      (onUpdate cfg submitOutcome s data).1.messages := by
  rw [onUpdate_messages, onUpdate_messages, reconcile_idem]

/-- When the guards pass and the snapshot carries an explicit non-empty
pending list, `handlePendingToolCalls` performs exactly one tool-executor
invocation, whatever the submission outcome. -/
theorem handlePendingToolCalls_execCount (cfg : EngineCfg)
    (submitOutcome : Except String Unit) (s : ChatState)
    (data : RealtimeChatHistory) (calls : List ToolCall)
    (hclient : cfg.clientConfigured = true)
    (huid : optStrTruthy s.chatUid = true)
    (hpending : data.pendingToolCalls = some calls) (hne : calls ≠ []) :
    (handlePendingToolCalls cfg submitOutcome s data).2.countP
      isToolExecutorEvent = 1 := by
  have hlen : ¬ calls.length = 0 := by
    simpa [List.length_eq_zero] using hne
  simp only [handlePendingToolCalls, hclient, huid, hpending, Bool.not_true,
    Bool.or_self]
  rw [if_neg (by simp)]
  rw [if_neg hlen]
  split
  · split <;> simp [isToolExecutorEvent]
  · simp [isToolExecutorEvent]

/-- The notification segment of `onUpdate` contains no tool-executor
invocation. -/
theorem onUpdate_events (cfg : EngineCfg) (submitOutcome : Except String Unit)
    (s : ChatState) (data : RealtimeChatHistory)
    (hcond : (decide (data.status = RealtimeStatus.waiting_for_tool_response) ||
      !(data.pendingToolCalls.getD []).isEmpty) = true) :
    (onUpdate cfg submitOutcome s data).2.countP isToolExecutorEvent =
      (handlePendingToolCalls cfg submitOutcome
        { s with
          messages := reconcile data.chatHistory s.messages,
          status := data.status.toChatStatus } data).2.countP
        isToolExecutorEvent := by
  simp only [onUpdate, hcond, if_true]
  rw [List.countP_append]
  have hnotify : (match data.chatHistory.getLast? with
      | some lastMessage =>
        if lastMessage.role = Role.assistant then
          [EngineEvent.messageReceivedCb lastMessage]
        else []
      | none => ([] : List EngineEvent)).countP isToolExecutorEvent = 0 := by
    split
    · split <;> simp [List.countP, List.countP.go, isToolExecutorEvent]
    · simp [List.countP, List.countP.go]
  omega

/-- The stop handler emits no tool-executor invocation, for any state and any
snapshot. -/
theorem onStop_no_tool_events (s : ChatState)
    (data : Option RealtimeChatHistory) :
    (onStop s data).2.countP isToolExecutorEvent = 0 := by
  simp only [onStop]
  repeat' split
  all_goals simp [List.countP, List.countP.go, isToolExecutorEvent]

/-- C3: for a snapshot with status `waiting_for_tool_response` and a non-empty
explicit pending-tool-calls list, one full poll tick invokes the pending-tool-
call handler (and hence the tool executor) exactly once — from the update
path — and the poll-stop handler performs no tool-related action for that
status (indeed for any snapshot). -/
theorem waiting_snapshot_executes_tools_once (cfg : EngineCfg)
    (submitOutcome : Except String Unit) (s : ChatState)
    (data : RealtimeChatHistory) (calls : List ToolCall)
    (hclient : cfg.clientConfigured = true)
    (huid : optStrTruthy s.chatUid = true)
    (hstatus : data.status = RealtimeStatus.waiting_for_tool_response)
    (hpending : data.pendingToolCalls = some calls) (hne : calls ≠ []) :
    (pollTick cfg submitOutcome s data).2.countP isToolExecutorEvent = 1 ∧
    ∀ t : ChatState,
      (onStop t (some data)).2.countP isToolExecutorEvent = 0 := by
  refine ⟨?_, fun t => onStop_no_tool_events t (some data)⟩
  have hstop : stopStatuses.contains data.status = true := by
    rw [hstatus]; decide
  have hcond : (decide (data.status = RealtimeStatus.waiting_for_tool_response) ||
      !(data.pendingToolCalls.getD []).isEmpty) = true := by
    simp [hstatus]
  simp only [pollTick, hstop, if_true]
  rw [List.countP_append, onUpdate_events cfg submitOutcome s data hcond,
    handlePendingToolCalls_execCount cfg submitOutcome
      { s with
        messages := reconcile data.chatHistory s.messages,
        status := data.status.toChatStatus } data calls hclient huid hpending
      hne,
    onStop_no_tool_events]

/-- Witness for C3 at a concrete configuration, state and snapshot. -/
theorem waiting_snapshot_executes_tools_once_witness :
    (demoCfg.clientConfigured = true ∧
     optStrTruthy demoState.chatUid = true ∧
     demoWaitingData.status = RealtimeStatus.waiting_for_tool_response ∧
     demoWaitingData.pendingToolCalls = some [demoCall, demoCallBoom] ∧
     [demoCall, demoCallBoom] ≠ ([] : List ToolCall)) ∧
    ((pollTick demoCfg (Except.ok ()) demoState demoWaitingData).2.countP
        isToolExecutorEvent = 1 ∧
     (onStop demoState (some demoWaitingData)).2.countP
        isToolExecutorEvent = 0) := by
  have h := waiting_snapshot_executes_tools_once demoCfg (Except.ok ())
    demoState demoWaitingData [demoCall, demoCallBoom] rfl (by decide) rfl rfl
    (by decide)
  exact ⟨⟨rfl, by decide, rfl, rfl, by decide⟩, h.1, h.2 demoState⟩

/-- C4: `handleToolCalls` is a per-call map over the batch — calls with an
unregistered name are skipped; a registered call whose callback resolves yields
a response carrying the resolved value; one whose callback rejects yields a
response whose content is the error wrapper for that call's id.  Being a total
function into a plain response list, it never throws, and each call's response
depends only on that call. -/
theorem handleToolCalls_spec (tools : List ModelInterfaceTool)
    (parseJson : String → Option Value) (calls : List ToolCall) :
    handleToolCalls tools parseJson calls =
      calls.filterMap (fun tc =>
        match toolMapGet tools tc.function.name with
        | none => none
        | some tool =>
          match tool.callback (parsedParams parseJson tc) with
          | Except.ok v =>
            some { tool_call_id := tc.id, content := ToolContent.result v,
                   role := Role.tool }
          | Except.error msg =>
            some { tool_call_id := tc.id,
                   content := ToolContent.errorWrapper msg,
                   role := Role.tool }) := by
  induction calls with
  | nil => rfl
  | cons tc rest ih =>
    simp only [handleToolCalls, List.filterMap_cons]
    cases h : toolMapGet tools tc.function.name with
    | none => simpa [h] using ih
    | some tool =>
      cases hc : tool.callback (parsedParams parseJson tc) <;> simp [h, hc, ih]

/-- The backward scan passes over a block of messages none of which is an
assistant message carrying tool calls, accumulating them into the suffix. -/
theorem extractLoop_skip (tools : List ModelInterfaceTool) :
    ∀ (L rest acc : List ChatMessage),
    (∀ x ∈ L, hasAssistantToolCalls x = false) →
    extractLoop tools (L.reverse ++ rest) acc = extractLoop tools rest (L ++ acc)
  | [], _, _, _ => by simp
  | x :: xs, rest, acc, h => by
    have hx : hasAssistantToolCalls x = false := h x (List.mem_cons_self x xs)
    have hxs : ∀ y ∈ xs, hasAssistantToolCalls y = false :=
      fun y hy => h y (List.mem_cons_of_mem x hy)
    calc extractLoop tools ((x :: xs).reverse ++ rest) acc
        = extractLoop tools (xs.reverse ++ (x :: rest)) acc := by
          rw [List.reverse_cons, List.append_assoc]; rfl
      _ = extractLoop tools (x :: rest) (xs ++ acc) :=
          extractLoop_skip tools xs (x :: rest) acc hxs
      _ = extractLoop tools rest (x :: (xs ++ acc)) := by
          simp [extractLoop, hx]
      _ = extractLoop tools rest ((x :: xs) ++ acc) := by
          rw [List.cons_append]

/-- The backward scan stops at the first assistant message carrying tool
calls and computes its unanswered client calls against the accumulated
suffix. -/
theorem extractLoop_found (tools : List ModelInterfaceTool) (m : ChatMessage)
    (restRev acc : List ChatMessage) (h : hasAssistantToolCalls m = true) :
    extractLoop tools (m :: restRev) acc =
      ((m.tool_calls.getD []).filter
        (fun tc => isClientTool tools tc.function.name)).filter
        (fun tc => !((acc.filter (fun x => decide (x.role = Role.tool))).map
          (fun x => x.tool_call_id)).contains (some tc.id)) := by
  simp [extractLoop, h]

/-- C5: on a transcript whose suffix after `m` contains no further assistant
message carrying tool calls, `extractPendingToolCalls` returns exactly the
tool calls of `m` — the most recent assistant message with tool calls —
restricted to client-registered names and to calls with no later tool-role
response matching their id; calls of earlier assistant messages never
appear. -/
theorem extractPendingToolCalls_latest (tools : List ModelInterfaceTool)
    (pre suf : List ChatMessage) (m : ChatMessage)
    (hm : hasAssistantToolCalls m = true)
    (hsuf : ∀ x ∈ suf, hasAssistantToolCalls x = false) :
    extractPendingToolCalls tools (pre ++ m :: suf) =
      (m.tool_calls.getD []).filter (fun tc =>
        isClientTool tools tc.function.name &&
        decide (¬ ∃ x ∈ suf, x.role = Role.tool ∧
          x.tool_call_id = some tc.id)) := by
  unfold extractPendingToolCalls
  have hrev : (pre ++ m :: suf).reverse = suf.reverse ++ (m :: pre.reverse) := by
    simp
  rw [hrev, extractLoop_skip tools suf (m :: pre.reverse) [] hsuf,
    List.append_nil, extractLoop_found tools m pre.reverse suf hm,
    List.filter_filter]
  refine List.filter_congr (fun tc _ => ?_)
  have hiff : (some tc.id ∈
      (suf.filter (fun x => decide (x.role = Role.tool))).map
        (fun x => x.tool_call_id)) ↔
      (∃ x ∈ suf, x.role = Role.tool ∧ x.tool_call_id = some tc.id) := by
    simp only [List.mem_map, List.mem_filter, decide_eq_true_eq]
    constructor
    · rintro ⟨a, ⟨ha1, ha2⟩, ha3⟩
      exact ⟨a, ha1, ha2, ha3⟩
    · rintro ⟨a, ha1, ha2, ha3⟩
      exact ⟨a, ⟨ha1, ha2⟩, ha3⟩
  have hcont : ((suf.filter (fun x => decide (x.role = Role.tool))).map
      (fun x => x.tool_call_id)).contains (some tc.id) =
      decide (∃ x ∈ suf, x.role = Role.tool ∧ x.tool_call_id = some tc.id) := by
    simp only [List.contains, List.elem_eq_mem]
    exact decide_eq_decide.mpr hiff
  rw [hcont, decide_not, Bool.and_comm]

/-- Witness for C5: a transcript with an earlier unanswered assistant tool
call, a latest assistant message carrying one registered and one foreign
call, and an unrelated later tool response. -/
theorem extractPendingToolCalls_latest_witness :
    (hasAssistantToolCalls latestAssistantMessage = true ∧
     (∀ x ∈ [toolResponseMessage], hasAssistantToolCalls x = false)) ∧
    extractPendingToolCalls demoTools
        ([earlierAssistantMessage] ++
          latestAssistantMessage :: [toolResponseMessage]) =
      (latestAssistantMessage.tool_calls.getD []).filter (fun tc =>
        isClientTool demoTools tc.function.name &&
        decide (¬ ∃ x ∈ [toolResponseMessage], x.role = Role.tool ∧
          x.tool_call_id = some tc.id)) :=
  ⟨⟨by decide, by decide⟩,
   extractPendingToolCalls_latest demoTools [earlierAssistantMessage]
     [toolResponseMessage] latestAssistantMessage (by decide) (by decide)⟩

/-- C6 counterexample: when the prior list already holds a message with the
colliding temporary uid `temp-5`, a failed send at `Date.now() = 5` removes
that pre-existing message too, so the list does not equal the pre-call list. -/
theorem sendMessage_failure_counterexample :
    (sendMessage true 5 "hello" none (Except.error "network failure")
        collidingState).1.messages ≠ collidingState.messages := by decide

/-- C6 (amended): a failed send sets status `error`, records the error, clears
loading, and removes every message carrying the optimistic uid — hence, when no
prior message shares that uid (the normal case for timestamp-based temporary
ids), the message list equals what it was before the call. -/
theorem sendMessage_failure_reverts (now : Nat) (text : String)
    (files : Option (List ChatFile)) (msg : String) (s : ChatState)
    (hfresh : ∀ m ∈ s.messages, m.uid ≠ tempUid now) :
    (sendMessage true now text files (Except.error msg) s).1.messages =
      s.messages ∧
    (sendMessage true now text files (Except.error msg) s).1.status =
      ChatStatus.error ∧
    (sendMessage true now text files (Except.error msg) s).1.isLoading =
      false ∧
    (sendMessage true now text files (Except.error msg) s).1.error =
      some msg := by
  refine ⟨?_, rfl, rfl, rfl⟩
  show (s.messages ++ [optimisticMessage now text files]).filter
      (fun m => decide (m.uid ≠ (optimisticMessage now text files).uid)) =
    s.messages
  rw [List.filter_append]
  have h1 : s.messages.filter
      (fun m => decide (m.uid ≠ (optimisticMessage now text files).uid)) =
      s.messages := by
    rw [List.filter_eq_self]
    intro m hm
    simpa [optimisticMessage] using hfresh m hm
  have h2 : [optimisticMessage now text files].filter
      (fun m => decide (m.uid ≠ (optimisticMessage now text files).uid)) =
      [] := by
    simp
  rw [h1, h2, List.append_nil]

/-- Witness for C6 at a concrete state with a fresh optimistic uid. -/
theorem sendMessage_failure_reverts_witness :
    (∀ m ∈ freshState.messages, m.uid ≠ tempUid 7) ∧
    ((sendMessage true 7 "hi" none (Except.error "boom")
        freshState).1.messages = freshState.messages ∧
     (sendMessage true 7 "hi" none (Except.error "boom")
        freshState).1.status = ChatStatus.error ∧
     (sendMessage true 7 "hi" none (Except.error "boom")
        freshState).1.isLoading = false ∧
     (sendMessage true 7 "hi" none (Except.error "boom")
        freshState).1.error = some "boom") :=
  ⟨by decide, sendMessage_failure_reverts 7 "hi" none "boom" freshState
    (by decide)⟩

/-- The failing-submission path of `handlePendingToolCalls` never changes the
status or loading cells. -/
theorem handlePendingToolCalls_error_frame (cfg : EngineCfg) (msg : String)
    (s : ChatState) (data : RealtimeChatHistory) :
    (handlePendingToolCalls cfg (Except.error msg) s data).1.status =
      s.status ∧
    (handlePendingToolCalls cfg (Except.error msg) s data).1.isLoading =
      s.isLoading := by
  simp only [handlePendingToolCalls]
  repeat' split
  all_goals exact ⟨rfl, rfl⟩

/-- C7 counterexample: a poll-fetch failure on a state mid-processing leaves
the status at `processing`, not `error`. -/
theorem error_paths_counterexample :
    (onPollError "network failure" demoState).1.status ≠ ChatStatus.error := by
  decide

/-- C7 (amended): every error path records the error — the poll-fetch-failure
path while clearing loading, stopping polling and leaving status unchanged;
the failed-send path while also setting status `error` and clearing loading;
a failed load while clearing loading and leaving status unchanged; and a
reached tool-response-submission failure (configured client, truthy chat uid,
explicit pending list producing at least one response) while leaving both
status and loading unchanged. -/
theorem error_paths_stable :
    (∀ (msg : String) (s : ChatState),
      (onPollError msg s).1.error = some msg ∧
      (onPollError msg s).1.isLoading = false ∧
      (onPollError msg s).1.shouldPoll = false ∧
      (onPollError msg s).1.status = s.status) ∧
    (∀ (now : Nat) (text : String) (files : Option (List ChatFile))
        (msg : String) (s : ChatState),
      (sendMessage true now text files (Except.error msg) s).1.status =
        ChatStatus.error ∧
      (sendMessage true now text files (Except.error msg) s).1.isLoading =
        false ∧
      (sendMessage true now text files (Except.error msg) s).1.error =
        some msg) ∧
    (∀ (uid msg : String) (s : ChatState),
      (loadChat true uid (Except.error msg) s).1.isLoading = false ∧
      (loadChat true uid (Except.error msg) s).1.error = some msg ∧
      (loadChat true uid (Except.error msg) s).1.status = s.status) ∧
    (∀ (cfg : EngineCfg) (msg : String) (s : ChatState)
        (data : RealtimeChatHistory),
      (handlePendingToolCalls cfg (Except.error msg) s data).1.status =
        s.status ∧
      (handlePendingToolCalls cfg (Except.error msg) s data).1.isLoading =
        s.isLoading) ∧
    (∀ (cfg : EngineCfg) (msg : String) (s : ChatState)
        (data : RealtimeChatHistory) (calls : List ToolCall),
      cfg.clientConfigured = true →
      optStrTruthy s.chatUid = true →
      data.pendingToolCalls = some calls →
      (handleToolCalls cfg.tools cfg.parseJson calls).length > 0 →
      (handlePendingToolCalls cfg (Except.error msg) s data).1.error =
        some msg) := by
  refine ⟨fun msg s => ⟨rfl, rfl, rfl, rfl⟩,
    fun now text files msg s => ⟨rfl, rfl, rfl⟩,
    fun uid msg s => ⟨rfl, rfl, rfl⟩,
    fun cfg msg s data => handlePendingToolCalls_error_frame cfg msg s data,
    ?_⟩
  intro cfg msg s data calls hclient huid hpending hresp
  have hne : ¬ calls.length = 0 := by
    intro h0
    rw [List.length_eq_zero] at h0
    subst h0
    simp [handleToolCalls] at hresp
  simp only [handlePendingToolCalls, hclient, huid, hpending, Bool.not_true,
    Bool.or_self]
  rw [if_neg (by simp)]
  rw [if_neg hne]
  rw [if_pos hresp]

/-- Witness for C7's hypothetical conjunct: at a concrete configuration, state
and waiting snapshot, a failed tool-response submission records the error. -/
theorem error_paths_stable_witness :
    (demoCfg.clientConfigured = true ∧
     optStrTruthy demoState.chatUid = true ∧
     demoWaitingData.pendingToolCalls = some [demoCall, demoCallBoom] ∧
     (handleToolCalls demoCfg.tools demoCfg.parseJson
        [demoCall, demoCallBoom]).length > 0) ∧
    (handlePendingToolCalls demoCfg (Except.error "net down") demoState
        demoWaitingData).1.error = some "net down" :=
  ⟨⟨rfl, by decide, rfl, by decide⟩,
   error_paths_stable.2.2.2.2 demoCfg "net down" demoState demoWaitingData
     [demoCall, demoCallBoom] rfl (by decide) rfl (by decide)⟩

/-- C8 counterexample: `clearChat` on a state with loading, handoff flag and
subthread id set leaves all three untouched. -/
theorem clearChat_counterexample :
    ¬ ((clearChat handoffState).isLoading = false ∧
       (clearChat handoffState).handedOff = false ∧
       (clearChat handoffState).handedOffSubThreadId = none) := by decide

/-- C8 (amended): `clearChat` resets the message list, the conversation id,
the status and the error to their empty/idle baseline and clears the poll flag
(stopping active polling); it leaves the loading flag, the handoff flag and
the subthread id unchanged. -/
theorem clearChat_resets :
    ∀ s : ChatState,
    (clearChat s).messages = [] ∧
    (clearChat s).chatUid = none ∧
    (clearChat s).status = ChatStatus.idle ∧
    (clearChat s).error = none ∧
    (clearChat s).shouldPoll = false ∧
    (clearChat s).isLoading = s.isLoading ∧
    (clearChat s).handedOff = s.handedOff ∧
    (clearChat s).handedOffSubThreadId = s.handedOffSubThreadId :=
  fun _ => ⟨rfl, rfl, rfl, rfl, rfl, rfl, rfl, rfl⟩

/-- C10: calling `sendMessage` with no configured API client records the
configuration error and fires the error callback, and does nothing else: no
optimistic message is appended, the conversation id, status, loading and
polling flags keep their prior values, and no transport submission event is
emitted. -/
theorem sendMessage_unconfigured_frame (now : Nat) (text : String)
    (files : Option (List ChatFile)) (outcome : Except String AsyncResponse)
    (s : ChatState) :
    (sendMessage false now text files outcome s).1.messages = s.messages ∧
    (sendMessage false now text files outcome s).1.chatUid = s.chatUid ∧
    (sendMessage false now text files outcome s).1.status = s.status ∧
    (sendMessage false now text files outcome s).1.isLoading = s.isLoading ∧
    (sendMessage false now text files outcome s).1.shouldPoll = s.shouldPoll ∧
    (sendMessage false now text files outcome s).1.handedOff = s.handedOff ∧
    (sendMessage false now text files outcome s).1.handedOffSubThreadId =
      s.handedOffSubThreadId ∧
    (sendMessage false now text files outcome s).1.error =
      some configErrorMessage ∧
    (sendMessage false now text files outcome s).2 =
      [EngineEvent.errorCb configErrorMessage] ∧
    EngineEvent.submitMessage ∉ (sendMessage false now text files outcome s).2
    := by
  refine ⟨rfl, rfl, rfl, rfl, rfl, rfl, rfl, rfl, rfl, ?_⟩
  show EngineEvent.submitMessage ∉ [EngineEvent.errorCb configErrorMessage]
  decide

/-- `clearPolling` restores the invariant state with no timer. -/
theorem pollInv_clearPolling (s : PollState) (h : pollInv s) :
    pollInv (clearPolling s) := by
  obtain ⟨-, h2⟩ := h
  unfold pollInv clearPolling clearIntervalM
  cases hIR : s.intervalRef with
  | none =>
    rw [hIR] at h2
    simp [hIR, h2, Option.toList]
  | some t =>
    rw [hIR] at h2
    simp [hIR, h2, Option.toList]

/-- Starting a fresh interval from an invariant state with no timer yields an
invariant state. -/
theorem pollInv_fresh_start (s : PollState) (h2 : s.activeTimers = []) :
    pollInv { setIntervalM { s with isPollingRef := true } |>.1 with
      intervalRef := some (setIntervalM { s with isPollingRef := true }).2 } := by
  refine ⟨rfl, ?_⟩
  simp [setIntervalM, h2, Option.toList]

/-- Every entry point of the polling hook preserves the timer invariant. -/
theorem pollInv_applyPollOp (s : PollState) (op : PollOp) (h : pollInv s) :
    pollInv (applyPollOp s op) := by
  obtain ⟨h1, h2⟩ := h
  cases op with
  | start =>
    simp only [applyPollOp, startOp]
    split
    · exact ⟨h1, h2⟩
    · next hns =>
      have hIR : s.intervalRef = none := by
        cases hIR : s.intervalRef
        · rfl
        · exact absurd (by simp [hIR]) hns
      rw [hIR] at h2
      exact pollInv_fresh_start s h2
  | stop => exact pollInv_clearPolling s ⟨h1, h2⟩
  | autoEffect enabled chatUid =>
    simp only [applyPollOp, autoEffectOp]
    split
    · split
      · exact pollInv_clearPolling s ⟨h1, h2⟩
      · exact ⟨h1, h2⟩
    · split
      · next hnp =>
        have hIR : s.intervalRef = none := by
          cases hIR : s.intervalRef with
          | none => rfl
          | some t =>
            rw [hIR] at h1
            simp only [Option.isSome] at h1
            simp [h1] at hnp
        rw [hIR] at h2
        exact pollInv_fresh_start s h2
      · exact ⟨h1, h2⟩
  | tickStop => exact pollInv_clearPolling s ⟨h1, h2⟩
  | tickError => exact pollInv_clearPolling s ⟨h1, h2⟩
  | unmount => exact pollInv_clearPolling s ⟨h1, h2⟩

/-- The invariant holds in every state reachable from the initial hook
state. -/
theorem pollInv_foldl :
    ∀ (ops : List PollOp) (s : PollState), pollInv s →
      pollInv (ops.foldl applyPollOp s)
  | [], _, h => h
  | op :: ops, s, h =>
    pollInv_foldl ops (applyPollOp s op) (pollInv_applyPollOp s op h)

/-- C9: across any interleaving of manual start/stop calls, auto-start effect
runs, tick continuations and unmount, at most one interval timer is live at
any time; and `start` is a no-op whenever a timer is already scheduled. -/
theorem polling_single_timer :
    (∀ ops : List PollOp,
      (List.foldl applyPollOp initPollState ops).activeTimers.length ≤ 1) ∧
    (∀ s : PollState, s.intervalRef.isSome = true →
      applyPollOp s PollOp.start = s) := by
  constructor
  · intro ops
    obtain ⟨-, h2⟩ := pollInv_foldl ops initPollState ⟨rfl, rfl⟩
    rw [h2]
    cases (List.foldl applyPollOp initPollState ops).intervalRef <;>
      simp [Option.toList]
  · intro s h
    simp [applyPollOp, startOp, h]

/-- Witness for C9: a concrete op sequence, and the no-op of `start` on a
concrete busy state. -/
theorem polling_single_timer_witness :
    ((List.foldl applyPollOp initPollState
        [PollOp.start, PollOp.autoEffect true (some "chat-1"), PollOp.start]
      ).activeTimers.length ≤ 1) ∧
    (busyPollState.intervalRef.isSome = true ∧
     applyPollOp busyPollState PollOp.start = busyPollState) :=
  ⟨polling_single_timer.1 _,
   by decide,
   polling_single_timer.2 busyPollState (by decide)⟩

end DevicUI
